import Mathlib

/-!
Verification development for the CSV Explorer filter/query engine
(`src/CSV-Explorer.py`).  The shallow embedding below translates the
program's data model and the three algorithmic pieces the specification
talks about:

* `apply_filters` (source lines 76-114): conjunctive application of the
  active filter predicates to a dataframe;
* the group-by aggregation used by `viz_area` (source lines 125-143),
  here the `count` (lines 135-136) and row-count / `size` (line 141)
  reductions;
* `correlation_matrix` (source lines 157-162).

Modelling conventions:
* pandas cells are `Cell`: a rational number, the missing marker `NaN`,
  or an arbitrary object carried by its string rendering (`Cell.str`).
  A Temporal (datetime) cell is carried by its string rendering as well,
  because `apply_filters` only ever distinguishes numeric columns
  (`pd.api.types.is_numeric_dtype`) from everything else and touches
  non-numeric cells exclusively through `astype(str)`.
* floats are modelled by exact rationals: pandas NaN propagation is made
  explicit in `numCellTest` (NaN compares `False` under every comparison
  except `!=`, which is `True`), and floating-point rounding is
  abstracted to exact arithmetic.
* Python `float(val)` is modelled by `pyFloat` / `strToRat`
  (sign, digits, one optional decimal point, surrounding whitespace;
  the exotic accepted forms `1e5`, `inf`, `nan` are not modelled and no
  claim depends on them).
* `s.str.contains(pat, na=False, case=False)` is modelled as
  case-insensitive substring search.  The source passes `pat` to a regex
  engine; for regex-metacharacter-free operands the two agree, and all
  concrete operands used below are metacharacter-free.  The `na=False`
  argument is dead in the source because `astype(str)` has already turned
  every missing value into the literal string `"nan"`.
-/

namespace CSVExplorer

/-- Column kind, as the spec's Column Type Classifier assigns it.
`apply_filters` itself only tests `is_numeric_dtype`, i.e. it
distinguishes `numeric` from the other two kinds. -/
inductive Kind
  | numeric
  | temporal
  | categorical
deriving DecidableEq, Repr

/-- A dataframe cell: a numeric value, the missing marker (NaN), or an
arbitrary object carried by its string rendering. -/
inductive Cell
  | num (q : ℚ)
  | nan
  | str (s : String)
deriving DecidableEq, Repr

/-- The filter operators offered by the UI (`build_filter_ui`):
`==, !=, <, <=, >, >=` for numeric/datetime columns and
`==, !=, contains, not contains, in, not in` for the rest. -/
inductive Op
  | eq
  | ne
  | lt
  | le
  | gt
  | ge
  | contains
  | notContains
  | isin
  | notIsin
deriving DecidableEq, Repr

/-- A filter operand as stored in `st.session_state["filters"]`: a number
(from `st.number_input`), a string (from `st.text_input`; a date picked in
`st.date_input` is likewise carried by its ISO string rendering, since the
evaluator only ever applies `float` or `str` to it), or a list of strings
(from `st.multiselect`). -/
inductive OpVal
  | num (q : ℚ)
  | str (s : String)
  | strList (l : List String)
deriving DecidableEq, Repr

/-- One filter predicate: the dict `{"col": col, "op": op, "val": val}`. -/
structure Pred where
  col : String
  op : Op
  val : OpVal
deriving DecidableEq, Repr

/-- A dataframe row: one cell per schema column, in schema order. -/
abbrev Row := List Cell

/-- A dataframe: a schema (column name and kind, in column order) and the
rows.  Boolean-mask selection in pandas preserves dtypes, so the schema is
invariant under filtering. -/
structure Table where
  schema : List (String × Kind)
  rows : List Row
deriving DecidableEq, Repr

/-- Kind of a named column, `none` when the column does not exist. -/
def lookupKind (schema : List (String × Kind)) (c : String) : Option Kind :=
  (schema.find? (fun p => p.1 == c)).map (fun p => p.2)

/-- Position of a named column in the schema. -/
def colIndex (schema : List (String × Kind)) (c : String) : Option Nat :=
  schema.findIdx? (fun p => p.1 == c)

/-- The cell of row `r` in the named column; `none` when the column is
absent or the row is ragged (neither occurs for a well-formed table and a
validated predicate; on an absent column the source would raise
`KeyError`). -/
def getCell (schema : List (String × Kind)) (r : Row) (c : String) : Option Cell :=
  match colIndex schema c with
  | none => none
  | some i => r.get? i

/-- Numeric value of `['0'..'9']` digit characters read left to right. -/
def digitsVal (l : List Char) : Nat :=
  l.foldl (fun n c => 10 * n + (c.toNat - 48)) 0

/-- ASCII whitespace, as stripped by Python `float()`. -/
def isSpaceChar (c : Char) : Bool :=
  c == ' ' || c == '\t' || c == '\n' || c == '\r'

/-- Strip leading and trailing whitespace. -/
def trimChars (l : List Char) : List Char :=
  ((l.dropWhile isSpaceChar).reverse.dropWhile isSpaceChar).reverse

/-- Split a character list at its first `'.'`; the second component is
`none` when there is no dot. -/
def splitAtDot : List Char → List Char × Option (List Char)
  | [] => ([], none)
  | c :: t =>
    if c == '.' then ([], some t)
    else
      let p := splitAtDot t
      (c :: p.1, p.2)

/-- Value of the unsigned body of a float literal, split at the first dot:
`digits`, `digits.`, `.digits` or `digits.digits`. -/
def ratOfParts : List Char → Option (List Char) → Option ℚ
  | i, none =>
    if !i.isEmpty && i.all Char.isDigit then some (digitsVal i) else none
  | i, some f =>
    if f.any (fun c => c == '.') then none
    else if i.isEmpty && f.isEmpty then none
    else if i.all Char.isDigit && f.all Char.isDigit then
      some ((digitsVal i : ℚ) + (digitsVal f : ℚ) / (10 : ℚ) ^ f.length)
    else none

/-- Unsigned float-literal body. -/
def ratOfChars (l : List Char) : Option ℚ :=
  ratOfParts (splitAtDot l).1 (splitAtDot l).2

/-- Model of Python `float(s)` on a string: optional surrounding
whitespace, optional sign, decimal digits with at most one dot.
(`float` also accepts `1e5`, `inf`, `nan`; those forms are not modelled
and no claim depends on them.) -/
def strToRat (s : String) : Option ℚ :=
  match trimChars s.data with
  | [] => none
  | c :: rest =>
    if c == '-' then (ratOfChars rest).map (fun q => -q)
    else if c == '+' then ratOfChars rest
    else ratOfChars (c :: rest)

/-- Model of `float(val)` on a stored operand (source line 84).  A list
operand raises `TypeError`, which the surrounding `except` catches, so it
behaves as a failed coercion. -/
def pyFloat (v : OpVal) : Option ℚ :=
  match v with
  | .num q => some q
  | .str s => strToRat s
  | .strList _ => none

/-- Model of `str(val)` on a stored operand.  The exact rendering of a
number or list only matters to string equality against cell renderings,
which no claim exercises with a non-string operand. -/
def pyStrOfVal : OpVal → String
  | .num q => toString q
  | .str s => s
  | .strList l => toString l

/-- Model of `astype(str)` on one cell: pandas renders the missing marker
as the literal string `"nan"`. -/
def cellStr : Cell → String
  | .num q => toString q
  | .nan => "nan"
  | .str s => s

/-- Model of `[str(x) for x in val]` (source lines 111 and 113).  Python
iterates a string operand character by character; a number operand raises
`TypeError` there (unreachable for validated predicates, modelled as the
empty list). -/
def valStrList : OpVal → List String
  | .strList l => l
  | .str s => s.data.map (fun c => String.mk [c])
  | .num _ => []

/-- ASCII lower-casing of one character (model of Python/pandas
case-folding; all operands in the claims are ASCII). -/
def lowerChar (c : Char) : Char :=
  if c.isUpper then Char.ofNat (c.toNat + 32) else c

/-- ASCII lower-casing of a string. -/
def lowerStr (s : String) : String :=
  String.mk (s.data.map lowerChar)

/-- `needle` occurs contiguously inside `hay`. -/
def listInfix (n : List Char) : List Char → Bool
  | [] => n.isEmpty
  | c :: t => n.isPrefixOf (c :: t) || listInfix n t

/-- Substring test: model of the regex search done by `Series.str.contains`
for a metacharacter-free pattern. -/
def isSubstr (needle hay : String) : Bool :=
  listInfix needle.data hay.data

/-- Per-cell decision of one predicate on a numeric column, after the
operand has been coerced to `v` (source lines 88-99).  pandas NaN
semantics: `NaN == v`, `NaN < v`, ... are `False`; `NaN != v` is `True`.
Operators with no branch in the numeric arm leave `out` unchanged, i.e.
keep every row.  A `Cell.str` cannot occur in a numeric-dtype column
(see `colWt`); the values chosen for it here mirror the NaN row. -/
def numCellTest (op : Op) (v : ℚ) : Cell → Bool
  | .num q =>
    match op with
    | .eq => decide (q = v)
    | .ne => decide (q ≠ v)
    | .lt => decide (q < v)
    | .le => decide (q ≤ v)
    | .gt => decide (v < q)
    | .ge => decide (v ≤ q)
    | _ => true
  | .nan =>
    match op with
    | .ne => true
    | .eq => false
    | .lt => false
    | .le => false
    | .gt => false
    | .ge => false
    | _ => true
  | .str _ =>
    match op with
    | .ne => true
    | .eq => false
    | .lt => false
    | .le => false
    | .gt => false
    | .ge => false
    | _ => true

/-- Per-cell decision of one predicate on a non-numeric column (source
lines 100-113): every comparison is made on `astype(str)` renderings;
`contains`/`not contains` are case-insensitive; `in`/`not in` test
membership among the stringified operand elements.  The ordering
operators `<, <=, >, >=` have no branch in this arm, so they keep every
row. -/
def strCellTest (op : Op) (v : OpVal) (c : Cell) : Bool :=
  match op with
  | .eq => cellStr c == pyStrOfVal v
  | .ne => !(cellStr c == pyStrOfVal v)
  | .contains => isSubstr (lowerStr (pyStrOfVal v)) (lowerStr (cellStr c))
  | .notContains => !(isSubstr (lowerStr (pyStrOfVal v)) (lowerStr (cellStr c)))
  | .isin => (valStrList v).contains (cellStr c)
  | .notIsin => !((valStrList v).contains (cellStr c))
  | _ => true

/-- Decision of one predicate on one row: the boolean mask entry computed
by the body of the `for f in filters` loop.  Skipped predicates (failed
numeric coercion, source lines 85-87, or an operator with no branch)
keep the row.  A missing column would raise `KeyError` in the source;
validated predicates (see `predOk`) make that branch unreachable, and it
is totalised here as keep. -/
def rowTest (schema : List (String × Kind)) (f : Pred) (r : Row) : Bool :=
  match getCell schema r f.col with
  | none => true
  | some c =>
    match lookupKind schema f.col with
    | some .numeric =>
      match pyFloat f.val with
      | none => true
      | some v => numCellTest f.op v c
    | _ => strCellTest f.op f.val c

/-- One pass of the loop body: `out = out[mask]` for this predicate. -/
def applyPred (t : Table) (f : Pred) : Table :=
  { t with rows := t.rows.filter (rowTest t.schema f) }

/-- `apply_filters` (source lines 76-114): fold the predicate list over
the copied dataframe. -/
def apply_filters (t : Table) (fs : List Pred) : Table :=
  fs.foldl applyPred t

/-- `df.copy()`: a value-identical new frame. -/
def Table.copy (t : Table) : Table :=
  ⟨t.schema, t.rows⟩

/-- Explicit state-passing rendering of the body of `apply_filters`: the
parameter binding `df` is read once (by `df.copy()`) and never assigned;
only the local `out` is rebound, each time to a freshly constructed
frame.  The first component is the value `df` holds when the function
returns. -/
def apply_filters_state (df : Table) (fs : List Pred) : Table × Table :=
  (df, fs.foldl applyPred df.copy)

/-- A predicate the UI could actually have constructed and the source can
evaluate without raising: its column exists, and `in`/`not in` does not
carry a number operand (on a non-numeric column the source would raise
`TypeError` inside the list comprehension there). -/
def predOk (schema : List (String × Kind)) (f : Pred) : Bool :=
  (lookupKind schema f.col).isSome &&
    (match f.op, f.val with
     | .isin, .num _ => false
     | .notIsin, .num _ => false
     | _, _ => true)

/-- Does this cell belong in a column of this kind?  pandas numeric dtypes
hold only numbers and NaN. -/
def cellMatches (k : Kind) (c : Cell) : Bool :=
  match k, c with
  | .numeric, .str _ => false
  | _, _ => true

/-- The named column exists, and in every row its cell is present and of
the column's kind. -/
def colWt (t : Table) (col : String) : Bool :=
  t.rows.all (fun r =>
    match getCell t.schema r col with
    | some c =>
      match lookupKind t.schema col with
      | some k => cellMatches k c
      | none => false
    | none => false)

/-- Split a character list at every `'-'`. -/
def splitOnDash : List Char → List (List Char)
  | [] => [[]]
  | c :: t =>
    if c == '-' then [] :: splitOnDash t
    else
      match splitOnDash t with
      | [] => [[c]]
      | h :: rest => (c :: h) :: rest

/-- Modelled from the spec: coercion of an operand to a Temporal column's
native comparable type (a calendar date).  The source has no temporal
coercion path at all — `apply_filters` routes every non-numeric column
through the string branch — so this follows the spec's wording
(section 4.3): the operand must be a scalar that parses as an ISO
`YYYY-MM-DD` date. -/
def coerceDate (v : OpVal) : Option (Nat × Nat × Nat) :=
  match v with
  | .str s =>
    match splitOnDash s.data with
    | [y, m, d] =>
      if !y.isEmpty && y.all Char.isDigit
          && !m.isEmpty && m.all Char.isDigit
          && !d.isEmpty && d.all Char.isDigit then
        some (digitsVal y, digitsVal m, digitsVal d)
      else none
    | _ => none
  | _ => none

/-- The spec's notion (sections 4.3 and the glossary) of an operand being
coercible to the column's native comparable type. -/
def coercible (k : Kind) (v : OpVal) : Bool :=
  match k with
  | .numeric => (pyFloat v).isSome
  | .temporal => (coerceDate v).isSome
  | .categorical => true

/-! ## Group-by aggregation (`viz_area`, source lines 125-143)

`plot_df.groupby(x, dropna=False)` groups rows by the value of column
`x`, with the missing marker forming its own group (all NaN keys
coalesce).  The claims compare per-group values, which are independent of
the order pandas lists the groups in, so groups are accessed by key. -/

/-- The rows of the group with key `k` under `groupby(x, dropna=False)`. -/
def groupRows (t : Table) (x : String) (k : Cell) : List Row :=
  t.rows.filter (fun r => decide (getCell t.schema r x = some k))

/-- `groupby(x, dropna=False).size()` at key `k` (source line 141): the
number of rows in the group. -/
def groupSize (t : Table) (x : String) (k : Cell) : Nat :=
  (groupRows t x k).length

/-- The row's cell in column `y` is present and non-null. -/
def nonNullAt (schema : List (String × Kind)) (y : String) (r : Row) : Bool :=
  match getCell schema r y with
  | some c => !(decide (c = Cell.nan))
  | none => false

/-- `groupby(x, dropna=False)[y].count()` at key `k` (source line 136):
the number of non-null `y` values in the group. -/
def groupCount (t : Table) (x y : String) (k : Cell) : Nat :=
  (groupRows t x k).countP (nonNullAt t.schema y)

/-- Every row of the table has a present, non-null cell in column `y`. -/
def measureAllPresent (t : Table) (y : String) : Bool :=
  t.rows.all (nonNullAt t.schema y)

/-! ## Correlation matrix (`correlation_matrix`, source lines 157-162)

`df.select_dtypes(include=[np.number])` keeps the numeric columns;
`num.corr()` computes pairwise Pearson coefficients over the rows where
both columns are non-null.  A Pearson coefficient is
`r = S_xy / sqrt(S_xx * S_yy)` with the centered sum of products
`S_xy = n*Σxy - Σx*Σy` (the 1/n or 1/(n-1) normalisations cancel).  To
stay in exact rational arithmetic the entry is encoded as
`(sign of S_xy, r² = S_xy² / (S_xx * S_yy))`, which determines `r`
exactly; the entry is `none` exactly when pandas reports NaN, i.e. when
`S_xx = 0` or `S_yy = 0` (zero variance on the pairwise-complete rows,
which subsumes the 0- and 1-observation cases). -/

/-- The numeric value of a cell, `none` for NaN and non-numeric objects. -/
def cellNum (c : Cell) : Option ℚ :=
  match c with
  | .num q => some q
  | _ => none

/-- Names of the numeric-dtype columns, in schema order
(`select_dtypes(include=[np.number])`). -/
def numericCols (t : Table) : List String :=
  (t.schema.filter (fun p => decide (p.2 = Kind.numeric))).map (fun p => p.1)

/-- The pair of numeric values of one row in columns `a` and `b`, `none`
unless both are present and non-null (pandas computes each correlation
over the pairwise-complete observations). -/
def pairRow (schema : List (String × Kind)) (a b : String) (r : Row) : Option (ℚ × ℚ) :=
  match (getCell schema r a).bind cellNum, (getCell schema r b).bind cellNum with
  | some x, some y => some (x, y)
  | _, _ => none

/-- The pairwise-complete observations of columns `a` and `b`. -/
def pairObs (t : Table) (a b : String) : List (ℚ × ℚ) :=
  t.rows.filterMap (pairRow t.schema a b)

/-- Σx over the observations. -/
def sX (l : List (ℚ × ℚ)) : ℚ := (l.map (fun p => p.1)).sum

/-- Σy over the observations. -/
def sY (l : List (ℚ × ℚ)) : ℚ := (l.map (fun p => p.2)).sum

/-- Σxy over the observations. -/
def sXY (l : List (ℚ × ℚ)) : ℚ := (l.map (fun p => p.1 * p.2)).sum

/-- Σx² over the observations. -/
def sXX (l : List (ℚ × ℚ)) : ℚ := (l.map (fun p => p.1 * p.1)).sum

/-- Σy² over the observations. -/
def sYY (l : List (ℚ × ℚ)) : ℚ := (l.map (fun p => p.2 * p.2)).sum

/-- Centered sum of products `n*Σxy - Σx*Σy`. -/
def cXY (l : List (ℚ × ℚ)) : ℚ := l.length * sXY l - sX l * sY l

/-- Centered sum of squares of the first coordinate. -/
def cXX (l : List (ℚ × ℚ)) : ℚ := l.length * sXX l - sX l * sX l

/-- Centered sum of squares of the second coordinate. -/
def cYY (l : List (ℚ × ℚ)) : ℚ := l.length * sYY l - sY l * sY l

/-- The sign of the Pearson coefficient. -/
def corrSign (l : List (ℚ × ℚ)) : Int :=
  if 0 < cXY l then 1 else if cXY l < 0 then -1 else 0

/-- One entry of `num.corr()`: `none` encodes NaN; otherwise the sign of
`r` together with `r²` in exact rational arithmetic. -/
def corrEntry (t : Table) (a b : String) : Option (Int × ℚ) :=
  if cXX (pairObs t a b) = 0 ∨ cYY (pairObs t a b) = 0 then none
  else
    some (corrSign (pairObs t a b),
      cXY (pairObs t a b) * cXY (pairObs t a b)
        / (cXX (pairObs t a b) * cYY (pairObs t a b)))

/-- `correlation_matrix` (source lines 157-162): a no-op (`none`) unless
the table has at least two numeric columns, otherwise the full matrix of
pairwise entries over the numeric columns. -/
def correlation_matrix (t : Table) :
    Option (List (String × String × Option (Int × ℚ))) :=
  if 2 ≤ (numericCols t).length then
    some ((numericCols t).flatMap
      (fun a => (numericCols t).map (fun b => (a, b, corrEntry t a b))))
  else none

/-- The non-null numeric observations of one column. -/
def colVals (t : Table) (a : String) : List ℚ :=
  t.rows.filterMap (fun r => (getCell t.schema r a).bind cellNum)

/-- Column `a` has zero variance: all of its non-null numeric
observations are equal. -/
def constCol (t : Table) (a : String) : Prop :=
  ∀ x ∈ colVals t a, ∀ y ∈ colVals t a, x = y

/-! ## Concrete tables used by witnesses and counterexamples -/

/-- A one-row table with a Temporal column, its cell carried by its string
rendering (what `astype(str)` produces for a datetime). -/
def tempTable : Table :=
  ⟨[("d", Kind.temporal)], [[Cell.str "2020-01-01"]]⟩

/-- A numeric table used to witness the skip-on-coercion-failure path. -/
def numSkipTable : Table :=
  ⟨[("age", Kind.numeric)], [[Cell.num 1], [Cell.nan]]⟩

/-- A two-column table for the idempotence witness. -/
def idemTable : Table :=
  ⟨[("city", Kind.categorical), ("age", Kind.numeric)],
    [[Cell.str "NYC", Cell.num 10], [Cell.str "LA", Cell.nan],
      [Cell.str "NYC", Cell.num 30]]⟩

/-- A filter set for the idempotence witness. -/
def idemFilters : List Pred :=
  [⟨"age", Op.ge, OpVal.num 15⟩, ⟨"city", Op.contains, OpVal.str "ny"⟩]

/-- A table whose group `"A"` holds one null and one non-null measure
value: `count` and `size` differ on it. -/
def countTable : Table :=
  ⟨[("city", Kind.categorical), ("age", Kind.numeric)],
    [[Cell.str "A", Cell.num 10], [Cell.str "A", Cell.nan]]⟩

/-- A table with no missing measure values. -/
def countFullTable : Table :=
  ⟨[("city", Kind.categorical), ("age", Kind.numeric)],
    [[Cell.str "A", Cell.num 1], [Cell.str "B", Cell.num 2]]⟩

/-- A categorical table whose only row has a missing cell. -/
def missTable : Table :=
  ⟨[("city", Kind.categorical)], [[Cell.nan]]⟩

/-- A categorical table with one present and one missing cell. -/
def missTable2 : Table :=
  ⟨[("city", Kind.categorical)], [[Cell.str "NYC"], [Cell.nan]]⟩

/-- A numeric table for the ==/!= partition witness. -/
def partTable : Table :=
  ⟨[("age", Kind.numeric)], [[Cell.num 1], [Cell.num 2], [Cell.nan]]⟩

/-- The spec's section 8 scenario table: `age = [10, 20, 30, missing]`. -/
def ageTable : Table :=
  ⟨[("age", Kind.numeric)],
    [[Cell.num 10], [Cell.num 20], [Cell.num 30], [Cell.nan]]⟩

/-- Two numeric columns, the first constant (zero variance). -/
def corrTable : Table :=
  ⟨[("a", Kind.numeric), ("b", Kind.numeric)],
    [[Cell.num 1, Cell.num 1], [Cell.num 1, Cell.num 2]]⟩

/-- A single numeric column: below the two-column threshold. -/
def corrSmallTable : Table :=
  ⟨[("a", Kind.numeric)], [[Cell.num 1], [Cell.num 2]]⟩

/-- A table and filters for the sublist witness. -/
def subTable : Table :=
  ⟨[("city", Kind.categorical), ("age", Kind.numeric)],
    [[Cell.str "NYC", Cell.num 10], [Cell.str "LA", Cell.num 20],
      [Cell.str "SF", Cell.nan]]⟩

/-- A filter set for the sublist witness. -/
def subFilters : List Pred :=
  [⟨"city", Op.isin, OpVal.strList ["NYC", "SF"]⟩, ⟨"age", Op.lt, OpVal.num 15⟩]

/-! ## Basic structure of the evaluator -/

/-- Two tables with the same schema and the same rows are equal. -/
theorem table_eq {a b : Table} (h1 : a.schema = b.schema) (h2 : a.rows = b.rows) :
    a = b := by
  cases a
  cases b
  cases h1
  cases h2
  rfl

/-- Filtering never changes the schema. -/
theorem apply_filters_schema (fs : List Pred) (t : Table) :
    (apply_filters t fs).schema = t.schema := by
  induction fs generalizing t with
  | nil => rfl
  | cons f fs ih => exact ih (applyPred t f)

/-- The evaluator is one conjunctive filter pass: a row survives the whole
filter set exactly when it passes every predicate's per-row test. -/
theorem apply_filters_rows (fs : List Pred) (t : Table) :
    (apply_filters t fs).rows =
      t.rows.filter (fun r => fs.all (fun f => rowTest t.schema f r)) := by
  induction fs generalizing t with
  | nil =>
    simp [apply_filters]
  | cons f fs ih =>
    have h1 : apply_filters t (f :: fs) = apply_filters (applyPred t f) fs := rfl
    rw [h1, ih (applyPred t f)]
    show (t.rows.filter (rowTest t.schema f)).filter _ = _
    rw [List.filter_filter]
    refine List.filter_congr (fun r _ => ?_)
    rw [List.all_cons, Bool.and_comm]
    rfl

/-- Claim C2: applying an empty filter set returns a table equal to the
input — same rows, same order, same columns. -/
theorem empty_filter_set_identity (t : Table) : apply_filters t [] = t := rfl

/-- Claim C7: on the table with numeric column `age = [10, 20, 30,
missing]`, the single predicate `(age, >=, 20)` evaluates to exactly the
rows with age 20 and age 30; the missing-valued row is excluded. -/
theorem age_ge_twenty_scenario :
    apply_filters ageTable [⟨"age", Op.ge, OpVal.num 20⟩] =
      ⟨[("age", Kind.numeric)], [[Cell.num 20], [Cell.num 30]]⟩ := by
  decide

/-- Claim C8: the evaluator never mutates its input.  In the source the
parameter `df` is read once by `df.copy()` and never assigned; every loop
step rebinds the local `out` to a freshly constructed frame.  Rendered as
explicit state passing, the `df` binding at return time is exactly the
input value, and the returned frame is the pure fold over the copy. -/
theorem apply_filters_preserves_input (df : Table) (fs : List Pred) :
    (apply_filters_state df fs).1 = df ∧
      (apply_filters_state df fs).2 = apply_filters df.copy fs :=
  ⟨rfl, rfl⟩

/-- Claim C10: the evaluator only removes rows.  Its output keeps the
input's schema (columns and their order), and its row list is a sublist
of the input's rows — the surviving rows themselves, in their original
relative order. -/
theorem apply_filters_sublist (t : Table) (fs : List Pred)
    (_hfs : fs.all (predOk t.schema) = true) :
    (apply_filters t fs).schema = t.schema ∧
      (apply_filters t fs).rows.Sublist t.rows := by
  refine ⟨apply_filters_schema fs t, ?_⟩
  rw [apply_filters_rows]
  exact List.filter_sublist t.rows

/-- Witness for C10 at a concrete table and filter set. -/
theorem apply_filters_sublist_witness :
    (apply_filters subTable subFilters).schema = subTable.schema ∧
      (apply_filters subTable subFilters).rows.Sublist subTable.rows :=
  apply_filters_sublist subTable subFilters (by decide)

/-- Claim C3: evaluating the same filter set twice is idempotent — the
second pass filters with exactly the per-row tests the first pass already
applied, so it removes nothing further. -/
theorem apply_filters_idempotent (t : Table) (fs : List Pred)
    (_hfs : fs.all (predOk t.schema) = true) :
    apply_filters (apply_filters t fs) fs = apply_filters t fs := by
  refine table_eq ?_ ?_
  · rw [apply_filters_schema, apply_filters_schema]
  · rw [apply_filters_rows, apply_filters_rows]
    simp only [apply_filters_schema, apply_filters_rows]
    rw [List.filter_filter]
    refine List.filter_congr (fun r _ => ?_)
    rw [Bool.and_self]

/-- Witness for C3 at a concrete table and filter set. -/
theorem apply_filters_idempotent_witness :
    apply_filters (apply_filters idemTable idemFilters) idemFilters =
      apply_filters idemTable idemFilters :=
  apply_filters_idempotent idemTable idemFilters (by decide)

/-! ## Claim C1: skip on coercion failure -/

/-- A predicate on a numeric column whose operand fails `float()` keeps
every row (source lines 83-87: the `except` branch runs `continue`). -/
theorem rowTest_skip (schema : List (String × Kind)) (f : Pred) (r : Row)
    (hk : lookupKind schema f.col = some Kind.numeric)
    (hv : pyFloat f.val = none) :
    rowTest schema f r = true := by
  unfold rowTest
  cases hgc : getCell schema r f.col with
  | none => simp [hgc]
  | some c => simp [hgc, hk, hv]

/-- Counterexample to C1 as stated: on a Temporal column the evaluator
never reaches the coercion path at all — `apply_filters` routes every
non-numeric column through the string branch — so an `==` predicate with
an operand that cannot be coerced to a date is *not* skipped: it compares
string renderings and here drops the only row. -/
theorem temporal_coercion_skip_cex :
    lookupKind tempTable.schema "d" = some Kind.temporal ∧
      coercible Kind.temporal (OpVal.str "x") = false ∧
      apply_filters tempTable [⟨"d", Op.eq, OpVal.str "x"⟩] ≠ tempTable := by
  decide

/-- Claim C1 amended: for a predicate whose column is *Numeric*, if the
operand cannot be coerced by `float()` the evaluator skips that predicate
(treats it as always-true) and never raises, leaving the rest of the
filter set applied normally.  (Temporal columns take the string branch:
`==`/`!=` compare string renderings and are never skipped, while the
ordering operators on them are always skipped.) -/
theorem numeric_coercion_failure_skips (t : Table) (fs1 fs2 : List Pred) (f : Pred)
    (hk : lookupKind t.schema f.col = some Kind.numeric)
    (hv : pyFloat f.val = none) :
    apply_filters t (fs1 ++ f :: fs2) = apply_filters t (fs1 ++ fs2) := by
  refine table_eq ?_ ?_
  · rw [apply_filters_schema, apply_filters_schema]
  · rw [apply_filters_rows, apply_filters_rows]
    refine List.filter_congr (fun r _ => ?_)
    simp [List.all_append, List.all_cons, rowTest_skip t.schema f r hk hv]

/-- Witness for the amended C1 at a concrete table and operand. -/
theorem numeric_coercion_failure_skips_witness :
    apply_filters numSkipTable ([] ++ ⟨"age", Op.lt, OpVal.str "abc"⟩ :: []) =
      apply_filters numSkipTable ([] ++ []) :=
  numeric_coercion_failure_skips numSkipTable [] []
    ⟨"age", Op.lt, OpVal.str "abc"⟩ (by decide) (by decide)

/-! ## Claim C5: missing values under contains / not-contains -/

/-- Counterexample to C5 as stated: `astype(str)` turns a missing cell
into the literal string `"nan"` before `str.contains` ever sees it (so
its `na=False` is dead code).  With operand `"a"` the missing row
*matches* `contains` and *fails* `not contains`. -/
theorem missing_contains_cex :
    lookupKind missTable.schema "city" = some Kind.categorical ∧
      (apply_filters missTable [⟨"city", Op.contains, OpVal.str "a"⟩]).rows =
        [[Cell.nan]] ∧
      (apply_filters missTable [⟨"city", Op.notContains, OpVal.str "a"⟩]).rows =
        [] := by
  decide

/-- On a non-numeric column the per-row test is the string-branch test on
the row's cell. -/
theorem rowTest_categorical (schema : List (String × Kind)) (col : String)
    (op : Op) (v : OpVal) (r : Row) (c : Cell)
    (hk : lookupKind schema col = some Kind.categorical)
    (hc : getCell schema r col = some c) :
    rowTest schema ⟨col, op, v⟩ r = strCellTest op v c := by
  unfold rowTest
  simp [hc, hk]

/-- Claim C5 amended: a missing cell is stringified to `"nan"`, so under a
`contains` predicate it is kept exactly when the lower-cased operand is a
substring of `"nan"` (e.g. operands `"a"`, `"na"`, `"n"` match it), and
under `not contains` exactly when it is not. -/
theorem missing_contains_characterization (t : Table) (col : String) (v : OpVal)
    (r : Row)
    (hk : lookupKind t.schema col = some Kind.categorical)
    (hc : getCell t.schema r col = some Cell.nan) :
    rowTest t.schema ⟨col, Op.contains, v⟩ r =
        isSubstr (lowerStr (pyStrOfVal v)) "nan" ∧
      rowTest t.schema ⟨col, Op.notContains, v⟩ r =
        !(isSubstr (lowerStr (pyStrOfVal v)) "nan") := by
  have hl : lowerStr (cellStr Cell.nan) = "nan" := by decide
  constructor
  · rw [rowTest_categorical t.schema col Op.contains v r Cell.nan hk hc]
    unfold strCellTest
    rw [hl]
  · rw [rowTest_categorical t.schema col Op.notContains v r Cell.nan hk hc]
    unfold strCellTest
    rw [hl]

/-- Witness for the amended C5 at a concrete table and operand. -/
theorem missing_contains_characterization_witness :
    rowTest missTable2.schema ⟨"city", Op.contains, OpVal.str "ny"⟩ [Cell.nan] =
        isSubstr (lowerStr (pyStrOfVal (OpVal.str "ny"))) "nan" ∧
      rowTest missTable2.schema ⟨"city", Op.notContains, OpVal.str "ny"⟩
          [Cell.nan] =
        !(isSubstr (lowerStr (pyStrOfVal (OpVal.str "ny"))) "nan") :=
  missing_contains_characterization missTable2 "city" (OpVal.str "ny")
    [Cell.nan] (by decide) (by decide)

/-! ## Claim C6: ==/!= partition the table -/

/-- Claim C6: on any column (of any kind) whose cells are well-typed, and
whose operand coerces when the column is numeric, the rows selected by
`==` and by `!=` on the same operand are disjoint and together are
exactly the rows of the table (as a permutation: nothing added, nothing
lost).  The numeric case leans on pandas NaN semantics — a NaN cell fails
`==` and passes `!=` — and the string case on `!=` being the literal
negation of `==` on string renderings. -/
theorem eq_ne_partition (t : Table) (col : String) (v : OpVal)
    (hw : colWt t col = true)
    (hv : lookupKind t.schema col = some Kind.numeric → (pyFloat v).isSome = true) :
    ((apply_filters t [⟨col, Op.eq, v⟩]).rows.Disjoint
        (apply_filters t [⟨col, Op.ne, v⟩]).rows) ∧
      List.Perm
        ((apply_filters t [⟨col, Op.eq, v⟩]).rows ++
          (apply_filters t [⟨col, Op.ne, v⟩]).rows)
        t.rows := by
  have hkey : ∀ r ∈ t.rows,
      rowTest t.schema ⟨col, Op.ne, v⟩ r =
        !(rowTest t.schema ⟨col, Op.eq, v⟩ r) := by
    intro r hr
    have hall := List.all_eq_true.mp hw r hr
    cases hgc : getCell t.schema r col with
    | none => simp [hgc] at hall
    | some c =>
      cases hgk : lookupKind t.schema col with
      | none => simp [hgc, hgk] at hall
      | some k =>
        simp only [hgc, hgk] at hall
        unfold rowTest
        simp only [hgc, hgk]
        cases k with
        | numeric =>
          obtain ⟨q, hq⟩ := Option.isSome_iff_exists.mp (hv hgk)
          simp only [hq]
          cases c with
          | num x => simp [numCellTest, decide_not]
          | nan => rfl
          | str s => simp [cellMatches] at hall
        | temporal => rfl
        | categorical => rfl
  have heq : (apply_filters t [⟨col, Op.eq, v⟩]).rows =
      t.rows.filter (fun r => rowTest t.schema ⟨col, Op.eq, v⟩ r) := by
    rw [apply_filters_rows]
    refine List.filter_congr (fun r _ => ?_)
    simp
  have hne1 : (apply_filters t [⟨col, Op.ne, v⟩]).rows =
      t.rows.filter (fun r => rowTest t.schema ⟨col, Op.ne, v⟩ r) := by
    rw [apply_filters_rows]
    refine List.filter_congr (fun r _ => ?_)
    simp
  have hne : (apply_filters t [⟨col, Op.ne, v⟩]).rows =
      t.rows.filter (fun r => !(rowTest t.schema ⟨col, Op.eq, v⟩ r)) := by
    rw [hne1]
    exact List.filter_congr hkey
  constructor
  · intro r hrA hrB
    rw [heq] at hrA
    rw [hne] at hrB
    have h1 := (List.mem_filter.mp hrA).2
    have h2 := (List.mem_filter.mp hrB).2
    simp [h1] at h2
  · rw [heq, hne]
    exact List.filter_append_perm _ t.rows

/-- Witness for C6 at a concrete numeric table (with a NaN row) and
operand. -/
theorem eq_ne_partition_witness :
    ((apply_filters partTable [⟨"age", Op.eq, OpVal.num 2⟩]).rows.Disjoint
        (apply_filters partTable [⟨"age", Op.ne, OpVal.num 2⟩]).rows) ∧
      List.Perm
        ((apply_filters partTable [⟨"age", Op.eq, OpVal.num 2⟩]).rows ++
          (apply_filters partTable [⟨"age", Op.ne, OpVal.num 2⟩]).rows)
        partTable.rows :=
  eq_ne_partition partTable "age" (OpVal.num 2) (by decide) (fun _ => by decide)

/-! ## Claim C4: count aggregation vs row count -/

/-- Counterexample to C4 as stated: `groupby(x)[y].count()` (source line
136) counts the *non-null* measure values in each group, while the
no-measure aggregation `groupby(x).size()` (source line 141) counts
rows.  On group `"A"`, whose measure values are `[10, NaN]`, count is 1
but the row count is 2. -/
theorem count_vs_size_cex :
    lookupKind countTable.schema "age" = some Kind.numeric ∧
      groupCount countTable "city" "age" (Cell.str "A") = 1 ∧
      groupSize countTable "city" (Cell.str "A") = 2 := by
  decide

/-- Claim C4 amended: the `count` aggregation of a Numeric measure equals
the no-measure row-count aggregation on every group whenever the measure
column has no missing values (in general `count` returns the number of
non-missing measure values in the group, which a missing value makes
strictly smaller than the row count). -/
theorem count_eq_size_of_no_missing_measure (t : Table) (x y : String) (k : Cell)
    (h : measureAllPresent t y = true) :
    groupCount t x y k = groupSize t x k := by
  unfold groupCount groupSize
  refine List.countP_eq_length.mpr (fun r hr => ?_)
  unfold groupRows at hr
  have hmem : r ∈ t.rows := (List.mem_filter.mp hr).1
  exact List.all_eq_true.mp h r hmem

/-- Witness for the amended C4 at a concrete table without missing
measure values. -/
theorem count_eq_size_witness :
    groupCount countFullTable "city" "age" (Cell.str "A") =
      groupSize countFullTable "city" (Cell.str "A") :=
  count_eq_size_of_no_missing_measure countFullTable "city" "age" (Cell.str "A")
    (by decide)

/-! ## Claim C9: the correlation matrix -/

/-- Swapping the two columns swaps each pairwise observation. -/
theorem pairRow_swap (schema : List (String × Kind)) (a b : String) (r : Row) :
    pairRow schema b a r = (pairRow schema a b r).map Prod.swap := by
  unfold pairRow
  cases h1 : (getCell schema r a).bind cellNum <;>
    cases h2 : (getCell schema r b).bind cellNum <;>
      simp [h1, h2, Prod.swap]

/-- Swapping the two columns swaps the observation list pointwise. -/
theorem pairObs_swap (t : Table) (a b : String) :
    pairObs t b a = (pairObs t a b).map Prod.swap := by
  unfold pairObs
  have hfun : pairRow t.schema b a =
      fun r => (pairRow t.schema a b r).map Prod.swap :=
    funext (fun r => pairRow_swap t.schema a b r)
  rw [hfun, ← List.map_filterMap]

/-- The centered sum of products is invariant under swapping. -/
theorem cXY_swap (l : List (ℚ × ℚ)) : cXY (l.map Prod.swap) = cXY l := by
  unfold cXY sXY sX sY
  simp only [List.map_map, List.length_map]
  have h1 : l.map ((fun p : ℚ × ℚ => p.1 * p.2) ∘ Prod.swap) =
      l.map (fun p => p.1 * p.2) :=
    List.map_congr_left (fun p _ => mul_comm p.2 p.1)
  have h2 : l.map ((fun p : ℚ × ℚ => p.1) ∘ Prod.swap) = l.map (fun p => p.2) :=
    List.map_congr_left (fun p _ => rfl)
  have h3 : l.map ((fun p : ℚ × ℚ => p.2) ∘ Prod.swap) = l.map (fun p => p.1) :=
    List.map_congr_left (fun p _ => rfl)
  rw [h1, h2, h3]
  ring

/-- Swapping exchanges the two centered sums of squares. -/
theorem cXX_swap (l : List (ℚ × ℚ)) : cXX (l.map Prod.swap) = cYY l := by
  unfold cXX cYY sXX sYY sX sY
  simp only [List.map_map, List.length_map]
  have h1 : l.map ((fun p : ℚ × ℚ => p.1 * p.1) ∘ Prod.swap) =
      l.map (fun p => p.2 * p.2) :=
    List.map_congr_left (fun p _ => rfl)
  have h2 : l.map ((fun p : ℚ × ℚ => p.1) ∘ Prod.swap) = l.map (fun p => p.2) :=
    List.map_congr_left (fun p _ => rfl)
  rw [h1, h2]

/-- Swapping exchanges the two centered sums of squares. -/
theorem cYY_swap (l : List (ℚ × ℚ)) : cYY (l.map Prod.swap) = cXX l := by
  unfold cXX cYY sXX sYY sX sY
  simp only [List.map_map, List.length_map]
  have h1 : l.map ((fun p : ℚ × ℚ => p.2 * p.2) ∘ Prod.swap) =
      l.map (fun p => p.1 * p.1) :=
    List.map_congr_left (fun p _ => rfl)
  have h2 : l.map ((fun p : ℚ × ℚ => p.2) ∘ Prod.swap) = l.map (fun p => p.1) :=
    List.map_congr_left (fun p _ => rfl)
  rw [h1, h2]

/-- Each correlation entry is symmetric in its two columns. -/
theorem corrEntry_symm (t : Table) (a b : String) :
    corrEntry t a b = corrEntry t b a := by
  unfold corrEntry corrSign
  rw [pairObs_swap t a b]
  simp only [cXY_swap, cXX_swap, cYY_swap]
  by_cases h1 : cXX (pairObs t a b) = 0 <;>
    by_cases h2 : cYY (pairObs t a b) = 0 <;>
      simp [h1, h2, mul_comm]

/-- Sums of a list of observations whose first coordinates all equal a
constant. -/
theorem sum_const_fst (l : List (ℚ × ℚ)) (c : ℚ) (h : ∀ p ∈ l, p.1 = c) :
    sX l = l.length * c ∧ sXX l = l.length * (c * c) := by
  induction l with
  | nil => simp [sX, sXX]
  | cons p l ih =>
    have hp := h p (List.mem_cons_self p l)
    have ih2 := ih (fun q hq => h q (List.mem_cons_of_mem p hq))
    constructor
    · simp only [sX, List.map_cons, List.sum_cons, List.length_cons]
      rw [show (l.map (fun p : ℚ × ℚ => p.1)).sum = sX l from rfl, ih2.1, hp]
      push_cast
      ring
    · simp only [sXX, List.map_cons, List.sum_cons, List.length_cons]
      rw [show (l.map (fun p : ℚ × ℚ => p.1 * p.1)).sum = sXX l from rfl, ih2.2,
        hp]
      push_cast
      ring

/-- The centered sum of squares vanishes when all first coordinates are
equal. -/
theorem cXX_of_const (l : List (ℚ × ℚ)) (h : ∀ p ∈ l, ∀ q ∈ l, p.1 = q.1) :
    cXX l = 0 := by
  cases l with
  | nil => simp [cXX, sX, sXX]
  | cons p l =>
    have hall : ∀ q ∈ p :: l, (q : ℚ × ℚ).1 = p.1 :=
      fun q hq => h q hq p (List.mem_cons_self p l)
    obtain ⟨h1, h2⟩ := sum_const_fst (p :: l) p.1 hall
    unfold cXX
    rw [h1, h2]
    ring

/-- A pairwise observation's first coordinate is an observation of the
first column. -/
theorem pairObs_fst_mem (t : Table) (a b : String) (p : ℚ × ℚ)
    (hp : p ∈ pairObs t a b) : p.1 ∈ colVals t a := by
  unfold pairObs at hp
  obtain ⟨r, hr, hpr⟩ := List.mem_filterMap.mp hp
  unfold pairRow at hpr
  cases h1 : (getCell t.schema r a).bind cellNum with
  | none => simp [h1] at hpr
  | some x =>
    cases h2 : (getCell t.schema r b).bind cellNum with
    | none => simp [h1, h2] at hpr
    | some y =>
      simp only [h1, h2, Option.some.injEq] at hpr
      unfold colVals
      refine List.mem_filterMap.mpr ⟨r, hr, ?_⟩
      rw [h1, ← hpr]

/-- A zero-variance first column makes the entry NaN. -/
theorem corrEntry_const_none (t : Table) (a b : String) (h : constCol t a) :
    corrEntry t a b = none := by
  have hc : cXX (pairObs t a b) = 0 := by
    apply cXX_of_const
    intro p hp q hq
    exact h p.1 (pairObs_fst_mem t a b p hp) q.1 (pairObs_fst_mem t a b q hq)
  unfold corrEntry
  simp [hc]

/-- Claim C9: the correlation variant is a no-op unless the table has at
least two numeric columns; when it runs, its matrix of pairwise Pearson
entries is symmetric, and every entry involving a zero-variance column is
NaN (`none`). -/
theorem correlation_matrix_spec (t : Table) :
    ((numericCols t).length < 2 → correlation_matrix t = none) ∧
      (2 ≤ (numericCols t).length → (correlation_matrix t).isSome = true) ∧
      (∀ a b, corrEntry t a b = corrEntry t b a) ∧
      (∀ a b, constCol t a →
        corrEntry t a b = none ∧ corrEntry t b a = none) := by
  refine ⟨?_, ?_, ?_, ?_⟩
  · intro h
    unfold correlation_matrix
    rw [if_neg (by omega)]
  · intro h
    unfold correlation_matrix
    rw [if_pos h]
    rfl
  · exact fun a b => corrEntry_symm t a b
  · intro a b h
    exact ⟨corrEntry_const_none t a b h,
      (corrEntry_symm t b a).trans (corrEntry_const_none t a b h)⟩

/-- Witness for C9: a one-numeric-column table yields no output, a
two-column table yields one, and the zero-variance column `"a"` of the
latter makes both entries involving it NaN. -/
theorem correlation_matrix_spec_witness :
    correlation_matrix corrSmallTable = none ∧
      (correlation_matrix corrTable).isSome = true ∧
      corrEntry corrTable "a" "b" = none ∧
      corrEntry corrTable "b" "a" = none :=
  ⟨(correlation_matrix_spec corrSmallTable).1 (by decide),
    (correlation_matrix_spec corrTable).2.1 (by decide),
    ((correlation_matrix_spec corrTable).2.2.2 "a" "b"
      (by unfold constCol; decide)).1,
    ((correlation_matrix_spec corrTable).2.2.2 "a" "b"
      (by unfold constCol; decide)).2⟩

end CSVExplorer
